import Mathlib

/-!
Shallow embedding of the rescueclaw watchdog (Rust) and proofs about it.

Each definition mirrors a function of the source tree:
  src/backup/mod.rs    take_snapshot, list_snapshots, prune_old_snapshots
  src/restore/mod.rs   restore_with_options, extract_backup, start_openclaw_with_config
  src/health/mod.rs    health_loop (one tick of the loop body)
  src/validate/mod.rs  Severity, ValidationIssue
  src/main.rs          run_daemon (cooperative scheduling of the three loops)

Filesystem state is made explicit: directory listings are lists of
filenames, file trees are association lists from relative path to file
content, and every side effect of an operation is recorded in an explicit
effect trace.  Outcomes of external subroutines (validation passes on the
scratch extraction, process discovery, shell commands) are inputs of the
model, so theorems quantify over all possible outcomes.  Strings are
compared through an explicit character-list comparison, which agrees with
the byte-wise comparison Rust applies to filenames.
-/

namespace RescueClaw

/-- Severity of a validation issue, from src/validate/mod.rs (enum Severity). -/
inductive Severity where
  | Error
  | Warning
deriving DecidableEq

/-- A validation issue, from src/validate/mod.rs (struct ValidationIssue). -/
structure ValidationIssue where
  severity : Severity
  message : String
deriving DecidableEq

/-- A backup snapshot descriptor, from src/backup/mod.rs (struct Snapshot);
only the id and path fields are modelled (the path of a snapshot is its
filename inside the backup directory). -/
structure Snapshot where
  id : String
  path : String
deriving DecidableEq

/- ───────────────────── string primitives ───────────────────── -/

/-- Boolean test that p is a leading substring of s (Rust starts_with /
a successful strip of a front pattern), on the character-list view. -/
def strStarts (p s : String) : Bool := p.data.isPrefixOf s.data

/-- Boolean test that p is a trailing substring of s (Rust ends_with /
a successful strip of a tail pattern), on the character-list view. -/
def strEnds (p s : String) : Bool := p.data.isSuffixOf s.data

/-- Removal of the first n characters of s (the result of stripping a
front pattern of length n after the match succeeded). -/
def strDropN (s : String) (n : Nat) : String := String.mk (s.data.drop n)

/-- Removal of the last n characters of s (the result of stripping a
tail pattern of length n after the match succeeded). -/
def strDropEnd (s : String) (n : Nat) : String := String.mk (s.data.take (s.data.length - n))

/-- Three-way lexicographic comparison of character lists, agreeing with
the byte-wise filename comparison used by Rust sort_by_key on OsString
(UTF-8 byte order equals code-point order). -/
def charListCmp : List Char → List Char → Ordering
  | [], [] => Ordering.eq
  | [], _ :: _ => Ordering.lt
  | _ :: _, [] => Ordering.gt
  | a :: as, b :: bs =>
      if a.toNat < b.toNat then Ordering.lt
      else if b.toNat < a.toNat then Ordering.gt
      else charListCmp as bs

/-- Three-way comparison of strings. -/
def strCmp (a b : String) : Ordering := charListCmp a.data b.data

/-- Boolean less-or-equal on strings. -/
def strLeB (a b : String) : Bool := strCmp a b != Ordering.gt

/-- Insertion of a string into an ascending-sorted list. -/
def orderedInsertStr (a : String) : List String → List String
  | [] => [a]
  | b :: l => if strLeB a b then a :: b :: l else b :: orderedInsertStr a l

/-- Ascending insertion sort of strings, the model of Rust sort_by_key
on the entry filename (stability is irrelevant here because a directory
never holds two identical names). -/
def insertionSortStr : List String → List String
  | [] => []
  | a :: l => orderedInsertStr a (insertionSortStr l)

/- ───────────── backup archive manager, src/backup/mod.rs ───────────── -/

/-- Archive filename produced by take_snapshot, src/backup/mod.rs line
47: format backup-id.tar.gz. -/
def backupFilename (id : String) : String := "backup-" ++ id ++ ".tar.gz"

/-- The filter applied by list_snapshots, src/backup/mod.rs line 141: a
directory entry is considered exactly when its path extension equals gz
(the extension is the part after the last dot, absent when the name is
only a dotted stem such as .gz alone). -/
def hasGzExt (f : String) : Bool := strEnds ".gz" f && f != ".gz"

/-- The id a listed snapshot gets, src/backup/mod.rs lines 150-155: strip
a backup- front part if present, then strip a .tar.gz tail if present;
on either failed strip fall back to the full original filename. -/
def snapshotId (filename : String) : String :=
  let rest := if strStarts "backup-" filename then strDropN filename 7 else filename
  if strEnds ".tar.gz" rest then strDropEnd rest 7 else filename

/-- Listing of snapshots, src/backup/mod.rs lines 132-172: keep the
directory entries whose extension is gz, sort ascending by filename
(Rust sort_by_key on file_name), reverse to newest-first, and build one
Snapshot per file. -/
def list_snapshots (dir : List String) : List Snapshot :=
  ((insertionSortStr (dir.filter hasGzExt)).reverse).map
    (fun f => Snapshot.mk (snapshotId f) f)

/-- Write state of an archive file in the backup directory. -/
inductive ArchiveWriteState where
  | halfWritten
  | complete
deriving DecidableEq

/-- Directory state observed between fs::File::create on line 54 of
src/backup/mod.rs and tar.finish on line 110: take_snapshot creates the
archive directly under its final name backup-id.tar.gz, so while the
tar stream is being appended the file exists but is not yet a complete
archive. -/
def takeSnapshotDirDuringWrite (dir : List (String × ArchiveWriteState)) (id : String) :
    List (String × ArchiveWriteState) :=
  (backupFilename id, ArchiveWriteState.halfWritten) :: dir

/-- Deletion of the listed excess snapshots in order, src/backup/mod.rs
lines 178-181: fs::remove_file with the question-mark operator, so the
first failing deletion aborts prune_old_snapshots with that error.
deleteOk gives the outcome of each removal. -/
def removeExcess : List Snapshot → (String → Bool) → Except String Unit
  | [], _ => Except.ok ()
  | s :: rest, deleteOk =>
      if deleteOk s.path then removeExcess rest deleteOk
      else Except.error ("failed to remove " ++ s.path)

/-- Pruning, src/backup/mod.rs lines 175-184: list the snapshots and, if
there are more than maxSnapshots, delete everything beyond the newest
maxSnapshots; a deletion failure propagates out as an error. -/
def prune_old_snapshots (maxSnapshots : Nat) (dir : List String)
    (deleteOk : String → Bool) : Except String Unit :=
  let snapshots := list_snapshots dir
  if snapshots.length > maxSnapshots then
    removeExcess (snapshots.drop maxSnapshots) deleteOk
  else Except.ok ()

/-- Final phase of take_snapshot, src/backup/mod.rs lines 110-128: after
the archive backup-id.tar.gz has been fully written into the backup
directory, pruning runs and its error propagates out of take_snapshot
through the question-mark operator on line 118; only if pruning
succeeded is the snapshot descriptor returned. -/
def take_snapshot_finalize (dir : List String) (id : String) (maxSnapshots : Nat)
    (deleteOk : String → Bool) : Except String Snapshot :=
  let dirAfterWrite := backupFilename id :: dir
  match prune_old_snapshots maxSnapshots dirAfterWrite deleteOk with
  | Except.error e => Except.error e
  | Except.ok _ => Except.ok (Snapshot.mk id (backupFilename id))

/- ─────────── archive contents and extraction, round trip ─────────── -/

/-- A file tree: an association list from a relative file path to that
file's content. -/
abbrev FileTree := List (String × String)

/-- The fixed workspace entries take_snapshot archives, src/backup/mod.rs
lines 23-34 (const CORE_FILES). -/
def CORE_FILES : List String :=
  ["SOUL.md", "IDENTITY.md", "AGENTS.md", "USER.md", "MEMORY.md",
   "TOOLS.md", "HEARTBEAT.md", "TODO.md", "memory", "scripts"]

/-- The fixed config entries take_snapshot archives, src/backup/mod.rs
lines 37-41 (const CONFIG_FILES). -/
def CONFIG_FILES : List String :=
  ["openclaw.json", "clawdbot.json", "agents"]

/-- The files of a tree covered by one configured entry name: the entry
itself when it is a file, or everything below it when it is a directory
(append_path_with_name and append_dir_all, src/backup/mod.rs lines
61-84). -/
def filesUnderEntry (tree : FileTree) (e : String) : FileTree :=
  tree.filter (fun pc => pc.1 == e || strStarts (e ++ "/") pc.1)

/-- The archive entries contributed by one list of configured entry
names, each file stored under the given path part followed by its
relative path (workspace/ or config/ in take_snapshot). -/
def archiveSection (front : String) (names : List String) (tree : FileTree) :
    List (String × String) :=
  names.flatMap (fun e => (filesUnderEntry tree e).map (fun pc => (front ++ pc.1, pc.2)))

/-- The tar entries take_snapshot writes, in order, src/backup/mod.rs
lines 58-108: workspace files under workspace/, config files under
config/, optionally the session directory under sessions/, and the
manifest.json record. -/
def take_snapshot_archive (ws cfgTree : FileTree) (sessions : Option FileTree)
    (manifest : String) : List (String × String) :=
  archiveSection "workspace/" CORE_FILES ws
    ++ archiveSection "config/" CONFIG_FILES cfgTree
    ++ (match sessions with
        | some sTree => sTree.map (fun pc => ("sessions/" ++ pc.1, pc.2))
        | none => [])
    ++ [("manifest.json", manifest)]

/-- Workspace files written by extract_backup, src/restore/mod.rs lines
366-393: each archive entry under workspace/ lands at its stripped
relative path below the workspace root. -/
def extract_backup_workspace (ar : List (String × String)) : FileTree :=
  ar.filterMap (fun pc =>
    if strStarts "workspace/" pc.1 then some (strDropN pc.1 10, pc.2) else none)

/-- Config-directory files written by extract_backup, src/restore/mod.rs
lines 366-393: entries under config/ land at their stripped relative
path below the config root, entries under sessions/ land below
agents/main/sessions inside the config root, all other entries are
skipped (the if-else chain checks workspace/ first). -/
def extract_backup_config (ar : List (String × String)) : FileTree :=
  ar.filterMap (fun pc =>
    if strStarts "workspace/" pc.1 then none
    else if strStarts "config/" pc.1 then some (strDropN pc.1 7, pc.2)
    else if strStarts "sessions/" pc.1 then
      some ("agents/main/sessions/" ++ strDropN pc.1 9, pc.2)
    else none)

/- ───────────── restore orchestration, src/restore/mod.rs ───────────── -/

/-- Side effects restore_with_options can perform, in program order:
extraction into the scratch TempDir (line 49), SIGTERM/SIGKILL of the
gateway pid (line 119), extraction onto the live workspace and config
directories (line 125), starting the gateway (line 131) and waiting for
it (line 134). -/
inductive RestoreEffect where
  | ExtractToScratch (archive : String)
  | KillProcess (pid : Nat)
  | ExtractToLive (archive : String)
  | StartGateway
  | WaitForAgent
deriving DecidableEq

/-- True for the effects that touch state outside the scratch area: the
live workspace and config trees and the supervised process. -/
def liveEffect : RestoreEffect → Bool
  | RestoreEffect.ExtractToScratch _ => false
  | RestoreEffect.KillProcess _ => true
  | RestoreEffect.ExtractToLive _ => true
  | RestoreEffect.StartGateway => true
  | RestoreEffect.WaitForAgent => false

/-- Inputs of one restore run: the snapshot listing and the outcomes of
the external subroutines it consults.  configIssues and workspaceIssues
are the results of validate_openclaw_config and validate_workspace on
the scratch extraction of the resolved snapshot (src/restore/mod.rs
lines 51-54); gatewayPid is the result of find_gateway_pid; startResult
the outcome of start_openclaw_with_config. -/
structure RestoreEnv where
  snapshots : List Snapshot
  configIssues : List ValidationIssue
  workspaceIssues : List ValidationIssue
  gatewayPid : Option Nat
  startResult : Except String Unit

/-- Snapshot resolution, src/restore/mod.rs lines 29-38: an explicit id is
looked up in the listing, otherwise the first (newest) snapshot is used. -/
def resolve_snapshot (snaps : List Snapshot) (backupId : Option String) : Option Snapshot :=
  match backupId with
  | some i => snaps.find? (fun s => s.id == i)
  | none => snaps.head?

/-- Mutation phase of restore_with_options, src/restore/mod.rs lines
97-153: the dry-run gate, then kill the gateway if one is listening,
extract onto the live trees, and restart only if one had been running
(a start failure propagates out of the function via the question-mark
operator on line 131). -/
def restore_mutation_phase (env : RestoreEnv) (snap : Snapshot) (dryRun : Bool)
    (acc : List RestoreEffect) : Except String Unit × List RestoreEffect :=
  if dryRun then
    (Except.ok (), acc)
  else
    let killEff := match env.gatewayPid with
      | some pid => [RestoreEffect.KillProcess pid]
      | none => []
    let eff := acc ++ killEff ++ [RestoreEffect.ExtractToLive snap.path]
    if env.gatewayPid.isSome then
      match env.startResult with
      | Except.error e => (Except.error e, eff ++ [RestoreEffect.StartGateway])
      | Except.ok _ =>
          (Except.ok (), eff ++ [RestoreEffect.StartGateway, RestoreEffect.WaitForAgent])
    else
      (Except.ok (), eff)

/-- Restore with validation and dry-run options, src/restore/mod.rs lines
17-154.  Returns the function result together with the trace of side
effects performed.  Unless force is set, the candidate is extracted into
a scratch directory and both validation passes are run; their issue lists
are concatenated and any Error-severity issue aborts (or, under dryRun,
reports failure and returns Ok) before any live effect happens. -/
def restore_with_options (env : RestoreEnv) (backupId : Option String)
    (force dryRun : Bool) : Except String Unit × List RestoreEffect :=
  if env.snapshots.isEmpty then
    (Except.error "No backups available. Run rescueclaw backup first.", [])
  else
    match resolve_snapshot env.snapshots backupId with
    | none => (Except.error "Backup not found. Use rescueclaw list to see available backups.", [])
    | some snap =>
      if force then
        restore_mutation_phase env snap dryRun []
      else
        let scratch := [RestoreEffect.ExtractToScratch snap.path]
        let allIssues := env.configIssues ++ env.workspaceIssues
        let errors := allIssues.filter (fun i => i.severity == Severity.Error)
        if errors.isEmpty then
          restore_mutation_phase env snap dryRun scratch
        else if dryRun then
          (Except.ok (), scratch)
        else
          (Except.error "Backup validation failed. Use --force to override.", scratch)

/-- True when the concatenated validation results contain at least one
Error-severity issue. -/
def hasBlockingError (env : RestoreEnv) : Bool :=
  (env.configIssues ++ env.workspaceIssues).any (fun i => i.severity == Severity.Error)

/- ─────────── gateway start fallback, src/restore/mod.rs ─────────── -/

/-- Outcome of spawning one external command: it ran and exited with
status zero, it ran and exited nonzero (with stderr text), or it could
not be executed at all (Rust Err from Command::output). -/
inductive CmdOutcome where
  | success
  | exitFailure (stderr : String)
  | spawnError (msg : String)
deriving DecidableEq

/-- The commands start_openclaw_with_config may run, src/restore/mod.rs
lines 277-326. -/
inductive StartCmd where
  | openclawWithConfig
  | clawdbotWithConfig
  | openclawBare
  | systemctlRestart
deriving DecidableEq

/-- Inputs of one start attempt: which config files exist and the
outcomes of the targeted start command and of the systemctl fallback. -/
structure StartEnv where
  primaryConfigExists : Bool
  legacyConfigExists : Bool
  targetedOutcome : CmdOutcome
  systemctlOutcome : CmdOutcome
deriving DecidableEq

/-- Start of the gateway, src/restore/mod.rs lines 277-326: pick the
targeted start command from the config files present; on exit status
zero return Ok; on a nonzero exit run systemctl --user restart as a
fallback and return Ok regardless of the fallback's outcome (its result
is discarded on line 314); only when the start command itself cannot be
executed is an error returned. -/
def start_openclaw_with_config (env : StartEnv) : Except String Unit × List StartCmd :=
  let targeted :=
    if env.primaryConfigExists then StartCmd.openclawWithConfig
    else if env.legacyConfigExists then StartCmd.clawdbotWithConfig
    else StartCmd.openclawBare
  match env.targetedOutcome with
  | CmdOutcome.success => (Except.ok (), [targeted])
  | CmdOutcome.exitFailure _ => (Except.ok (), [targeted, StartCmd.systemctlRestart])
  | CmdOutcome.spawnError e =>
      (Except.error ("Could not start gateway: " ++ e), [targeted])

/- ─────────── health monitor loop body, src/health/mod.rs ─────────── -/

/-- A checkpoint request read from the well-known file, from
src/health/mod.rs (struct CheckpointRequest); the action and timestamp
fields are not read by the loop body and are omitted. -/
structure CheckpointRequest where
  reason : String
  rollbackWindowSeconds : Nat
deriving DecidableEq

/-- State of active checkpoint monitoring, from src/health/mod.rs
(struct CheckpointState).  Times are modelled as naturals. -/
structure CheckpointState where
  reason : String
  deadline : Nat
  backupId : String
deriving DecidableEq

/-- The two in-loop locals of health_loop, src/health/mod.rs lines
131-134: the consecutive-failure counter and the single checkpoint slot. -/
structure LoopState where
  consecutiveFailures : Nat
  activeCheckpoint : Option CheckpointState
deriving DecidableEq

/-- Health-relevant configuration, from src/config/mod.rs (HealthConfig):
auto_restore enablement and unhealthy_threshold. -/
structure HealthCfg where
  autoRestore : Bool
  unhealthyThreshold : Nat
deriving DecidableEq

/-- Observations one tick of health_loop makes of its environment, in
program order: the parsed checkpoint-request file, the result of
take_snapshot when a checkpoint is opened, the SystemTime::now() values
read at checkpoint opening (line 146), at the expiry check (line 169)
and at the in-window check of the failure branch (line 206), the
liveness probe result, and the outcomes of the two possible restore
calls (lines 208 and 221). -/
structure TickEnv where
  checkpointReq : Option CheckpointRequest
  snapshotResult : Except String String
  nowOpen : Nat
  nowExpiry : Nat
  alive : Bool
  nowFailure : Nat
  checkpointRestoreOk : Bool
  latestRestoreOk : Bool

/-- Externally visible actions of one tick of health_loop. -/
inductive HealthAction where
  | TakeCheckpointSnapshot
  | AppendIncident (checkNumber : Nat)
  | RestoreFromCheckpoint (backupId : String)
  | RestoreLatest
deriving DecidableEq

/-- Checkpoint-request handling at the top of the tick, src/health/mod.rs
lines 140-165: a request while Idle takes a snapshot and opens the
checkpoint (on snapshot failure nothing is opened); a request while a
checkpoint is active is ignored; absence of the request file while a
checkpoint is active closes it with no restore. -/
def health_tick_checkpoint_request (env : TickEnv) (s : LoopState) :
    LoopState × List HealthAction :=
  match env.checkpointReq with
  | some req =>
      if s.activeCheckpoint.isNone then
        match env.snapshotResult with
        | Except.ok backupId =>
            let cp := CheckpointState.mk req.reason
              (env.nowOpen + req.rollbackWindowSeconds) backupId
            ({ s with activeCheckpoint := some cp },
             [HealthAction.TakeCheckpointSnapshot])
        | Except.error _ => (s, [HealthAction.TakeCheckpointSnapshot])
      else (s, [])
  | none =>
      if s.activeCheckpoint.isSome then
        ({ s with activeCheckpoint := none }, [])
      else (s, [])

/-- Checkpoint-deadline expiry check, src/health/mod.rs lines 168-173:
a checkpoint whose deadline has passed is discarded with no restore. -/
def health_tick_expiry (env : TickEnv) (s : LoopState) : LoopState :=
  match s.activeCheckpoint with
  | some cp => if env.nowExpiry > cp.deadline then { s with activeCheckpoint := none } else s
  | none => s

/-- Threshold-based auto-restore, src/health/mod.rs lines 219-226: when
auto_restore is enabled and the failure counter has reached the
threshold, restore from the latest snapshot; on success reset the
counter, on failure leave it. -/
def health_tick_threshold (cfg : HealthCfg) (env : TickEnv) (s : LoopState)
    (acc : List HealthAction) : LoopState × List HealthAction :=
  if cfg.autoRestore ∧ s.consecutiveFailures ≥ cfg.unhealthyThreshold then
    if env.latestRestoreOk then
      ({ s with consecutiveFailures := 0 }, acc ++ [HealthAction.RestoreLatest])
    else (s, acc ++ [HealthAction.RestoreLatest])
  else (s, acc)

/-- One tick of the health monitoring loop body, src/health/mod.rs lines
136-228: request handling, expiry check, liveness probe; on probe
success reset the failure counter; on failure increment it, append an
incident record, and then either restore immediately from the open
checkpoint when still inside its window (resetting counter and closing
the checkpoint on success, and in every case skipping the threshold path
for this tick via the continue on line 214) or fall through to the
threshold-based auto-restore. -/
def health_tick (cfg : HealthCfg) (env : TickEnv) (s : LoopState) :
    LoopState × List HealthAction :=
  let (s1, a1) := health_tick_checkpoint_request env s
  let s2 := health_tick_expiry env s1
  if env.alive then
    ({ s2 with consecutiveFailures := 0 }, a1)
  else
    let failures := s2.consecutiveFailures + 1
    let s3 := { s2 with consecutiveFailures := failures }
    let a2 := a1 ++ [HealthAction.AppendIncident failures]
    match s3.activeCheckpoint with
    | some cp =>
        if env.nowFailure ≤ cp.deadline then
          if env.checkpointRestoreOk then
            ({ s3 with consecutiveFailures := 0, activeCheckpoint := none },
             a2 ++ [HealthAction.RestoreFromCheckpoint cp.backupId])
          else (s3, a2 ++ [HealthAction.RestoreFromCheckpoint cp.backupId])
        else health_tick_threshold cfg env s3 a2
    | none => health_tick_threshold cfg env s3 a2

/- ───────── cooperative scheduling of the daemon, src/main.rs ───────── -/

/-- The atomic blocks of the daemon's tasks.  run_daemon (src/main.rs
lines 106-110) polls the health loop, the backup loop and the command
listener cooperatively on one task via tokio::select!, so control can
move between tasks only at await points.  A restore has awaits after
killing the gateway (the 2-second sleep on line 120 of
src/restore/mod.rs) and while waiting for responsiveness (line 134), so
it splits into three atomic blocks; take_snapshot (src/backup/mod.rs) is
fully synchronous and forms a single block. -/
inductive DaemonBlock where
  | restoreResolveValidateKill
  | restoreExtractStart
  | restoreVerify
  | takeSnapshotRun
deriving DecidableEq

/-- The blocks of one restore operation, in order, separated by await
points. -/
def restoreBlocks : List DaemonBlock :=
  [DaemonBlock.restoreResolveValidateKill,
   DaemonBlock.restoreExtractStart,
   DaemonBlock.restoreVerify]

/-- The blocks of one scheduled backup run. -/
def backupBlocks : List DaemonBlock := [DaemonBlock.takeSnapshotRun]

/-- Interleaving of two block sequences: the traces a cooperative
scheduler can produce when both tasks are runnable, each task's blocks
kept in order. -/
inductive Interleaving : List DaemonBlock → List DaemonBlock → List DaemonBlock → Prop where
  | nil : Interleaving [] [] []
  | left {x xs ys zs} : Interleaving xs ys zs → Interleaving (x :: xs) ys (x :: zs)
  | right {y xs ys zs} : Interleaving xs ys zs → Interleaving xs (y :: ys) (y :: zs)

/-- The executions of run_daemon in which one restore and one scheduled
backup are both pending: any cooperative interleaving of their blocks
(no lock exists anywhere in the source that would restrict this set). -/
def daemonTrace (t : List DaemonBlock) : Prop :=
  Interleaving restoreBlocks backupBlocks t

/- ───────────────────── concrete inputs ───────────────────── -/

/-- Concrete restore input for the C1 counterexample: one snapshot whose
config validation reports the Error-severity issue of an empty provider
endpoint URL, no gateway process running. -/
def envBlockedRestore : RestoreEnv :=
  { snapshots := [{ id := "20250101-120000", path := "backup-20250101-120000.tar.gz" }]
    configIssues := [{ severity := Severity.Error
                       message := "Provider openai has empty baseUrl" }]
    workspaceIssues := []
    gatewayPid := none
    startResult := Except.ok () }

/-- Concrete restore input whose validation reports only a warning. -/
def envWarnedRestore : RestoreEnv :=
  { snapshots := [{ id := "20250102-120000", path := "backup-20250102-120000.tar.gz" }]
    configIssues := [{ severity := Severity.Warning, message := "Missing AGENTS.md" }]
    workspaceIssues := []
    gatewayPid := none
    startResult := Except.ok () }

/-- Concrete supervision configuration for the checkpoint scenario. -/
def cfgScenario : HealthCfg := HealthCfg.mk true 3

/-- Concrete checkpoint for the spec scenario: window deadline 5,
snapshot id cp-backup. -/
def cpScenario : CheckpointState := CheckpointState.mk "risky" 5 "cp-backup"

/-- Tick observations for a liveness failure at t=2, inside the window. -/
def envScenarioInWindow : TickEnv :=
  TickEnv.mk (some (CheckpointRequest.mk "risky" 5)) (Except.ok "cp-backup")
    0 2 false 2 true true

/-- Loop state with the scenario checkpoint open. -/
def stScenario : LoopState := LoopState.mk 0 (some cpScenario)

/-- Concrete start input for the C8 counterexample: the primary config
exists, the targeted start exits nonzero, and the systemctl fallback
also exits nonzero. -/
def envStartBothFail : StartEnv :=
  StartEnv.mk true false (CmdOutcome.exitFailure "unsupported flag --config")
    (CmdOutcome.exitFailure "unit not found")

/-- Concrete start input where the start command itself cannot be
executed. -/
def envStartSpawnErr : StartEnv :=
  StartEnv.mk false false (CmdOutcome.spawnError "openclaw not found") CmdOutcome.success

/-- Concrete workspace tree for the round-trip witness, matching the
example of the spec: SOUL.md, AGENTS.md and memory/note.md. -/
def wsExample : FileTree :=
  [("SOUL.md", "i am the agent"), ("AGENTS.md", "agents"), ("memory/note.md", "note")]

/-- Concrete config tree for the round-trip witness. -/
def cfgExample : FileTree := [("openclaw.json", "gateway port 7744")]

/- ═══════════════════════════ theorems ═══════════════════════════ -/

theorem filter_isEmpty_iff_not_any (l : List ValidationIssue) :
    (l.filter (fun i => i.severity == Severity.Error)).isEmpty =
      !(l.any (fun i => i.severity == Severity.Error)) := by
  induction l with
  | nil => rfl
  | cons a t ih =>
      by_cases h : a.severity == Severity.Error
      · simp [List.filter, List.any, h, List.isEmpty]
      · simp only [List.filter, List.any] at *
        simp [h, ih]

/-- With dryRun set, the mutation phase performs nothing beyond the
effects already accumulated. -/
theorem restore_mutation_phase_dryRun (env : RestoreEnv)
    (snap : Snapshot) (acc : List RestoreEffect) :
    restore_mutation_phase env snap true acc = (Except.ok (), acc) := rfl

/-- C1 counterexample: invoking restore with force=false on a snapshot
whose combined validation pass contains an Error-severity issue does NOT
always abort with an error — with dryRun set the function returns Ok
(src/restore/mod.rs lines 79-82 print "would fail" and return Ok(())),
contradicting the claim as stated. -/
theorem c1_counterexample :
    hasBlockingError envBlockedRestore = true ∧
    (restore_with_options envBlockedRestore none false true).fst = Except.ok () :=
  ⟨rfl, rfl⟩

/-- C1 (amended): for every restore input and snapshot id, if restore is
invoked with force=false and the combined validation pass (config issues
concatenated with workspace issues) contains at least one Error-severity
issue, then no live effect is performed (the live workspace and config
directories and the supervised process are untouched), and unless dryRun
is set the call aborts with an error; if the combined pass contains no
Error-severity issue, a non-dry-run restore is not blocked: it proceeds
to extract the resolved snapshot onto the live directories. -/
theorem c1_amended (env : RestoreEnv) (backupId : Option String) (dryRun : Bool) :
    (hasBlockingError env = true →
      (∀ e ∈ (restore_with_options env backupId false dryRun).snd, liveEffect e = false) ∧
      (dryRun = false →
        ∀ u, (restore_with_options env backupId false dryRun).fst ≠ Except.ok u))
    ∧ (hasBlockingError env = false →
      ∀ snap, resolve_snapshot env.snapshots backupId = some snap →
        dryRun = false →
        RestoreEffect.ExtractToLive snap.path ∈
          (restore_with_options env backupId false dryRun).snd) := by
  constructor
  · intro hErr
    have hfilter :
        ((env.configIssues ++ env.workspaceIssues).filter
          (fun i => i.severity == Severity.Error)).isEmpty = false := by
      rw [filter_isEmpty_iff_not_any]
      rw [hasBlockingError] at hErr
      rw [hErr]
      rfl
    unfold restore_with_options
    by_cases hempty : env.snapshots.isEmpty
    · simp [hempty]
    · simp only [hempty, if_false, Bool.false_eq_true]
      cases hres : resolve_snapshot env.snapshots backupId with
      | none => simp
      | some snap =>
          cases dryRun with
          | true =>
              simp only [hfilter, Bool.false_eq_true, if_false]
              simp [liveEffect]
          | false =>
              simp only [hfilter, Bool.false_eq_true, if_false]
              simp [liveEffect]
  · intro hOk snap hres hdry
    subst hdry
    have hfilter :
        ((env.configIssues ++ env.workspaceIssues).filter
          (fun i => i.severity == Severity.Error)).isEmpty = true := by
      rw [filter_isEmpty_iff_not_any]
      rw [hasBlockingError] at hOk
      rw [hOk]
      rfl
    have hne : env.snapshots.isEmpty = false := by
      cases hsnaps : env.snapshots with
      | nil =>
          rw [hsnaps] at hres
          cases backupId <;> simp [resolve_snapshot] at hres
      | cons a t => rfl
    unfold restore_with_options
    rw [hne]
    simp only [if_false, Bool.false_eq_true, hres]
    simp only [hfilter, if_true]
    unfold restore_mutation_phase
    simp only [if_false, Bool.false_eq_true]
    cases env.gatewayPid with
    | none => simp
    | some pid =>
        cases env.startResult with
        | error e => simp
        | ok u => simp

/-- C1 amended, evaluated: on a blocked snapshot (empty provider endpoint
URL) a non-dry-run unforced restore performs no live effect and does not
return Ok, and on a snapshot with only warnings the restore proceeds to
live extraction. -/
theorem c1_amended_witness :
    (∀ e ∈ (restore_with_options envBlockedRestore none false false).snd,
        liveEffect e = false) ∧
    (∀ u, (restore_with_options envBlockedRestore none false false).fst ≠ Except.ok u) ∧
    RestoreEffect.ExtractToLive "backup-20250102-120000.tar.gz" ∈
      (restore_with_options envWarnedRestore none false false).snd := by
  refine ⟨((c1_amended envBlockedRestore none false).1 (by decide)).1,
          ((c1_amended envBlockedRestore none false).1 (by decide)).2 rfl,
          (c1_amended envWarnedRestore none false).2 (by decide)
            { id := "20250102-120000", path := "backup-20250102-120000.tar.gz" } (by decide) rfl⟩

/-- C6: restore with dryRun=true performs no effect outside its scratch
extraction area, for every input, snapshot id, force flag and validation
outcome: the live workspace, live config directory and the supervised
process are untouched. -/
theorem c6_dry_run_frame (env : RestoreEnv) (backupId : Option String) (force : Bool) :
    ∀ e ∈ (restore_with_options env backupId force true).snd, liveEffect e = false := by
  unfold restore_with_options
  by_cases hempty : env.snapshots.isEmpty
  · simp [hempty]
  · simp only [hempty, if_false, Bool.false_eq_true]
    cases hres : resolve_snapshot env.snapshots backupId with
    | none => simp
    | some snap =>
        cases force with
        | true => simp [restore_mutation_phase_dryRun]
        | false =>
            by_cases herr :
                ((env.configIssues ++ env.workspaceIssues).filter
                  (fun i => i.severity == Severity.Error)).isEmpty = true
            · simp only [herr, if_true]
              simp [restore_mutation_phase_dryRun, liveEffect]
            · simp only [Bool.not_eq_true] at herr
              simp only [herr, Bool.false_eq_true, if_false]
              simp [liveEffect]

/-- C6 evaluated: a dry run on the blocked snapshot only extracts into
the scratch area. -/
theorem c6_dry_run_frame_witness :
    liveEffect (RestoreEffect.ExtractToScratch "backup-20250101-120000.tar.gz") = false :=
  c6_dry_run_frame envBlockedRestore none false
    (RestoreEffect.ExtractToScratch "backup-20250101-120000.tar.gz") (by decide)

/-- The threshold path emits RestoreLatest exactly when auto-restore is
enabled and the counter has reached the threshold. -/
theorem health_tick_threshold_restoreLatest (cfg : HealthCfg) (env : TickEnv)
    (s : LoopState) (acc : List HealthAction)
    (hacc : HealthAction.RestoreLatest ∉ acc) :
    (HealthAction.RestoreLatest ∈ (health_tick_threshold cfg env s acc).snd ↔
      cfg.autoRestore = true ∧ s.consecutiveFailures ≥ cfg.unhealthyThreshold) := by
  unfold health_tick_threshold
  by_cases h : cfg.autoRestore = true ∧ s.consecutiveFailures ≥ cfg.unhealthyThreshold
  · cases hl : env.latestRestoreOk <;> simp [h]
  · simp [h, hacc]

/-- The threshold path never emits a checkpoint-scoped restore. -/
theorem health_tick_threshold_no_checkpoint_restore (cfg : HealthCfg) (env : TickEnv)
    (s : LoopState) (acc : List HealthAction) (b : String)
    (hacc : HealthAction.RestoreFromCheckpoint b ∉ acc) :
    HealthAction.RestoreFromCheckpoint b ∉ (health_tick_threshold cfg env s acc).snd := by
  unfold health_tick_threshold
  by_cases h : cfg.autoRestore = true ∧ s.consecutiveFailures ≥ cfg.unhealthyThreshold
  · cases hl : env.latestRestoreOk <;> simp [h, hacc]
  · simp [h, hacc]

/-- The threshold path leaves the checkpoint slot unchanged. -/
theorem health_tick_threshold_checkpoint (cfg : HealthCfg) (env : TickEnv)
    (s : LoopState) (acc : List HealthAction) :
    (health_tick_threshold cfg env s acc).fst.activeCheckpoint = s.activeCheckpoint := by
  unfold health_tick_threshold
  by_cases h : cfg.autoRestore = true ∧ s.consecutiveFailures ≥ cfg.unhealthyThreshold
  · cases hl : env.latestRestoreOk <;> simp [h]
  · simp [h]

/-- When the checkpoint-request signal is still present and a checkpoint
is already active, the request-handling step changes nothing. -/
theorem health_tick_checkpoint_request_active (env : TickEnv) (s : LoopState)
    (cp : CheckpointState) (req : CheckpointRequest)
    (hcp : s.activeCheckpoint = some cp)
    (hreq : env.checkpointReq = some req) :
    health_tick_checkpoint_request env s = (s, []) := by
  unfold health_tick_checkpoint_request
  rw [hreq, hcp]
  rfl

/-- C2: on a tick that starts in CheckpointOpen with the request signal
still present and a failing liveness probe: if the tick is within the
checkpoint deadline (both at the expiry check and at the failure-branch
check), a restore targeted at the checkpoint snapshot is triggered
regardless of the failure counter and the configured threshold, no
threshold-based restore happens that tick, and on successful restore the
counter is reset to 0 and the checkpoint is cleared; if instead the
deadline has elapsed, no checkpoint-scoped restore occurs and the
threshold-based restore fires exactly under the normal
auto-restore-and-threshold condition. -/
theorem c2_checkpoint_window (cfg : HealthCfg) (env : TickEnv) (s : LoopState)
    (cp : CheckpointState) (req : CheckpointRequest)
    (hcp : s.activeCheckpoint = some cp)
    (hreq : env.checkpointReq = some req)
    (halive : env.alive = false) :
    (env.nowExpiry ≤ cp.deadline → env.nowFailure ≤ cp.deadline →
      HealthAction.RestoreFromCheckpoint cp.backupId ∈ (health_tick cfg env s).snd ∧
      HealthAction.RestoreLatest ∉ (health_tick cfg env s).snd ∧
      (env.checkpointRestoreOk = true →
        (health_tick cfg env s).fst.consecutiveFailures = 0 ∧
        (health_tick cfg env s).fst.activeCheckpoint = none))
    ∧ ((cp.deadline < env.nowExpiry ∨ cp.deadline < env.nowFailure) →
      (∀ b, HealthAction.RestoreFromCheckpoint b ∉ (health_tick cfg env s).snd) ∧
      (HealthAction.RestoreLatest ∈ (health_tick cfg env s).snd ↔
        cfg.autoRestore = true ∧ s.consecutiveFailures + 1 ≥ cfg.unhealthyThreshold)) := by
  have h1 := health_tick_checkpoint_request_active env s cp req hcp hreq
  constructor
  · intro hexp hwin
    have h2 : health_tick_expiry env s = s := by
      have hnot : ¬ env.nowExpiry > cp.deadline := Nat.not_lt.mpr hexp
      unfold health_tick_expiry
      rw [hcp]
      simp [hnot]
    unfold health_tick
    rw [h1]
    simp only [halive, Bool.false_eq_true, if_false, h2, hcp]
    simp only [if_pos hwin]
    cases hro : env.checkpointRestoreOk <;> simp
  · intro hlate
    unfold health_tick
    rw [h1]
    simp only [halive, Bool.false_eq_true, if_false]
    rcases Nat.lt_or_ge cp.deadline env.nowExpiry with hgt | hle
    · have h2 : health_tick_expiry env s = { s with activeCheckpoint := none } := by
        unfold health_tick_expiry
        rw [hcp]
        simp [hgt]
      rw [h2]
      simp only []
      constructor
      · intro b
        exact health_tick_threshold_no_checkpoint_restore cfg env _ _ b (by simp)
      · exact health_tick_threshold_restoreLatest cfg env _ _ (by simp)
    · have hwl : cp.deadline < env.nowFailure := by
        rcases hlate with h | h
        · exact absurd h (Nat.not_lt.mpr hle)
        · exact h
      have h2 : health_tick_expiry env s = s := by
        have hnot : ¬ env.nowExpiry > cp.deadline := Nat.not_lt.mpr hle
        unfold health_tick_expiry
        rw [hcp]
        simp [hnot]
      rw [h2]
      simp only [hcp]
      rw [if_neg (Nat.not_le.mpr hwl)]
      constructor
      · intro b
        exact health_tick_threshold_no_checkpoint_restore cfg env _ _ b (by simp)
      · exact health_tick_threshold_restoreLatest cfg env _ _ (by simp)

/-- C2 evaluated at the spec scenario: a checkpoint with deadline 5 and
snapshot id cp-backup; a liveness failure at t=2 restores from cp-backup,
skips the threshold path, and on success resets the counter and clears
the checkpoint. -/
theorem c2_checkpoint_window_witness :
    HealthAction.RestoreFromCheckpoint "cp-backup" ∈
      (health_tick cfgScenario envScenarioInWindow stScenario).snd ∧
    HealthAction.RestoreLatest ∉
      (health_tick cfgScenario envScenarioInWindow stScenario).snd ∧
    (envScenarioInWindow.checkpointRestoreOk = true →
      (health_tick cfgScenario envScenarioInWindow stScenario).fst.consecutiveFailures = 0 ∧
      (health_tick cfgScenario envScenarioInWindow stScenario).fst.activeCheckpoint = none) :=
  (c2_checkpoint_window cfgScenario envScenarioInWindow stScenario
    cpScenario (CheckpointRequest.mk "risky" 5)
    rfl rfl rfl).1 (by decide) (by decide)

/-- C10: on a tick that starts in CheckpointOpen with the request signal
still present, a failing liveness probe inside the deadline, and a
checkpoint-scoped restore that itself fails: the checkpoint stays open,
the failure counter keeps its incremented value (it is not reset), and
the threshold-based restore path is still skipped for that tick. -/
theorem c10_failed_checkpoint_restore (cfg : HealthCfg) (env : TickEnv) (s : LoopState)
    (cp : CheckpointState) (req : CheckpointRequest)
    (hcp : s.activeCheckpoint = some cp)
    (hreq : env.checkpointReq = some req)
    (halive : env.alive = false)
    (hexp : env.nowExpiry ≤ cp.deadline)
    (hwin : env.nowFailure ≤ cp.deadline)
    (hfail : env.checkpointRestoreOk = false) :
    (health_tick cfg env s).fst.activeCheckpoint = some cp ∧
    (health_tick cfg env s).fst.consecutiveFailures = s.consecutiveFailures + 1 ∧
    HealthAction.RestoreLatest ∉ (health_tick cfg env s).snd := by
  have h1 := health_tick_checkpoint_request_active env s cp req hcp hreq
  have h2 : health_tick_expiry env s = s := by
    have hnot : ¬ env.nowExpiry > cp.deadline := Nat.not_lt.mpr hexp
    unfold health_tick_expiry
    rw [hcp]
    simp [hnot]
  unfold health_tick
  rw [h1]
  simp only [halive, Bool.false_eq_true, if_false, h2, hcp]
  simp only [if_pos hwin, hfail, Bool.false_eq_true, if_false]
  simp [hcp]

/-- C10 evaluated: with threshold 1 already reached and a failing
checkpoint restore at t=2 inside a deadline of 5, the checkpoint stays
open, the counter becomes 1, and no threshold restore is attempted. -/
theorem c10_failed_checkpoint_restore_witness :
    (health_tick (HealthCfg.mk true 1)
      (TickEnv.mk (some (CheckpointRequest.mk "risky" 5)) (Except.ok "cp-backup") 0 2 false 2 false true)
      (LoopState.mk 0 (some (CheckpointState.mk "risky" 5 "cp-backup")))).fst.activeCheckpoint =
        some (CheckpointState.mk "risky" 5 "cp-backup") ∧
    (health_tick (HealthCfg.mk true 1)
      (TickEnv.mk (some (CheckpointRequest.mk "risky" 5)) (Except.ok "cp-backup") 0 2 false 2 false true)
      (LoopState.mk 0 (some (CheckpointState.mk "risky" 5 "cp-backup")))).fst.consecutiveFailures = 0 + 1 ∧
    HealthAction.RestoreLatest ∉
      (health_tick (HealthCfg.mk true 1)
        (TickEnv.mk (some (CheckpointRequest.mk "risky" 5)) (Except.ok "cp-backup") 0 2 false 2 false true)
        (LoopState.mk 0 (some (CheckpointState.mk "risky" 5 "cp-backup")))).snd :=
  c10_failed_checkpoint_restore (HealthCfg.mk true 1)
    (TickEnv.mk (some (CheckpointRequest.mk "risky" 5)) (Except.ok "cp-backup") 0 2 false 2 false true)
    (LoopState.mk 0 (some (CheckpointState.mk "risky" 5 "cp-backup")))
    (CheckpointState.mk "risky" 5 "cp-backup") (CheckpointRequest.mk "risky" 5)
    rfl rfl rfl (by decide) (by decide) rfl

/-- C4 refuted on the code: in the middle of take_snapshot the
half-written archive is already in the backup directory under its final
name, and list_snapshots (which accepts any file with extension gz and
never verifies completeness, src/backup/mod.rs lines 139-168) returns it
as a complete snapshot. -/
theorem c4_half_written_archive_listed :
    (backupFilename "20250101-120000", ArchiveWriteState.halfWritten) ∈
      takeSnapshotDirDuringWrite [] "20250101-120000" ∧
    list_snapshots ((takeSnapshotDirDuringWrite [] "20250101-120000").map Prod.fst) =
      [Snapshot.mk "20250101-120000" "backup-20250101-120000.tar.gz"] := by
  constructor
  · exact List.mem_singleton.mpr rfl
  · rfl

/-- C7 refuted on the code: with max_snapshots = 1, one existing older
snapshot and the fresh archive fully written, a failing deletion of the
excess oldest snapshot makes take_snapshot itself return an error
instead of succeeding. -/
theorem c7_prune_failure_fatal :
    take_snapshot_finalize ["backup-20250101-000000.tar.gz"] "20250102-000000" 1
      (fun f => f != "backup-20250101-000000.tar.gz") =
    Except.error ("failed to remove " ++ "backup-20250101-000000.tar.gz") := by
  rfl

/-- C8 counterexample: when the targeted start exits nonzero and the
systemctl fallback also fails, start_openclaw_with_config still returns
Ok (the fallback's result is discarded with let _ on line 314 of
src/restore/mod.rs), so a launch where no viable path succeeded is NOT
reported as an error to the caller, contradicting the claim. -/
theorem c8_counterexample :
    envStartBothFail.targetedOutcome = CmdOutcome.exitFailure "unsupported flag --config" ∧
    envStartBothFail.systemctlOutcome = CmdOutcome.exitFailure "unit not found" ∧
    (start_openclaw_with_config envStartBothFail).fst = Except.ok () :=
  ⟨rfl, rfl, rfl⟩

/-- C8 (amended): for every configuration, when the targeted start
invocation runs but exits nonzero, start falls back to asking the host
service manager to restart the unit and then reports success regardless
of the fallback's outcome; an error is returned to the caller exactly
when the start command itself cannot be executed. -/
theorem c8_amended (env : StartEnv) :
    (∀ st, env.targetedOutcome = CmdOutcome.exitFailure st →
      StartCmd.systemctlRestart ∈ (start_openclaw_with_config env).snd ∧
      (start_openclaw_with_config env).fst = Except.ok ()) ∧
    (∀ m, env.targetedOutcome = CmdOutcome.spawnError m →
      (start_openclaw_with_config env).fst =
        Except.error ("Could not start gateway: " ++ m)) := by
  constructor
  · intro st hst
    unfold start_openclaw_with_config
    rw [hst]
    simp
  · intro m hm
    unfold start_openclaw_with_config
    rw [hm]

/-- C8 amended, evaluated: a nonzero targeted start triggers the
systemctl fallback and still yields Ok; a spawn failure yields the
reported error. -/
theorem c8_amended_witness :
    (StartCmd.systemctlRestart ∈ (start_openclaw_with_config envStartBothFail).snd ∧
     (start_openclaw_with_config envStartBothFail).fst = Except.ok ()) ∧
    (start_openclaw_with_config envStartSpawnErr).fst =
      Except.error ("Could not start gateway: " ++ "openclaw not found") :=
  ⟨(c8_amended envStartBothFail).1 "unsupported flag --config" rfl,
   (c8_amended envStartSpawnErr).2 "openclaw not found" rfl⟩

/-- C9 refuted on the code: the source has no mutual-exclusion lock, and
because restore suspends at the 2-second sleep between killing the
gateway and extracting files, the cooperative scheduler of run_daemon
can run the backup loop's take_snapshot there.  The trace below — the
whole of take_snapshot strictly between the first and last blocks of one
restore — is an admissible daemon execution, so a restore and a
take_snapshot are not mutually exclusive. -/
theorem c9_snapshot_interleaves_restore :
    daemonTrace
      [DaemonBlock.restoreResolveValidateKill, DaemonBlock.takeSnapshotRun,
       DaemonBlock.restoreExtractStart, DaemonBlock.restoreVerify] ∧
    [DaemonBlock.restoreResolveValidateKill, DaemonBlock.takeSnapshotRun,
       DaemonBlock.restoreExtractStart, DaemonBlock.restoreVerify].head? =
      restoreBlocks.head? ∧
    [DaemonBlock.restoreResolveValidateKill, DaemonBlock.takeSnapshotRun,
       DaemonBlock.restoreExtractStart, DaemonBlock.restoreVerify].getLast? =
      restoreBlocks.getLast? :=
  ⟨Interleaving.left (Interleaving.right (Interleaving.left
     (Interleaving.left Interleaving.nil))),
   rfl, by decide⟩

/-- A string starts with any of its leading parts. -/
theorem strStarts_append (p r : String) : strStarts p (p ++ r) = true := by
  unfold strStarts
  rw [String.data_append]
  exact List.isPrefixOf_iff_prefix.mpr (List.prefix_append _ _)

/-- Stripping the leading part off a concatenation gives back the rest. -/
theorem strDropN_append (front p : String) (n : Nat) (h : front.data.length = n) :
    strDropN (front ++ p) n = p := by
  unfold strDropN
  rw [String.data_append, ← h, List.drop_left]

/-- Concatenation after a fixed leading part is injective. -/
theorem append_left_cancel_str (front p q : String) (h : front ++ p = front ++ q) :
    p = q := by
  have hd := congrArg String.data h
  rw [String.data_append, String.data_append] at hd
  exact String.ext (List.append_cancel_left hd)

/-- Archive entries of a section are the files of the tree, under the
section's leading path part. -/
theorem archiveSection_mem {front : String} {names : List String} {tree : FileTree}
    {x c : String} (h : (x, c) ∈ archiveSection front names tree) :
    ∃ q, x = front ++ q ∧ (q, c) ∈ tree := by
  unfold archiveSection at h
  rw [List.mem_flatMap] at h
  obtain ⟨e, _, hmem⟩ := h
  rw [List.mem_map] at hmem
  obtain ⟨pc, hpc, heq⟩ := hmem
  have hin := (List.mem_filter.mp hpc).1
  have h1 : front ++ pc.1 = x := congrArg Prod.fst heq
  have h2 : pc.2 = c := congrArg Prod.snd heq
  subst h2
  exact ⟨pc.1, h1.symm, hin⟩

/-- An entry of the modelled snapshot archive whose path lies under
workspace/ comes from the workspace tree. -/
theorem take_snapshot_archive_workspace_mem (ws cfgTree : FileTree)
    (sessions : Option FileTree) (manifest : String) (p c : String)
    (h : ("workspace/" ++ p, c) ∈ take_snapshot_archive ws cfgTree sessions manifest) :
    (p, c) ∈ ws := by
  unfold take_snapshot_archive at h
  rw [List.append_assoc, List.append_assoc] at h
  rcases List.mem_append.mp h with hws | hrest
  · obtain ⟨q, hq, hmem⟩ := archiveSection_mem hws
    rw [append_left_cancel_str "workspace/" p q hq]
    exact hmem
  · exfalso
    rcases List.mem_append.mp hrest with hcfg | hrest2
    · obtain ⟨q, hq, _⟩ := archiveSection_mem hcfg
      have hh : (some 'w' : Option Char) = some 'c' := congrArg (fun s => s.data.head?) hq
      simp at hh
    · rcases List.mem_append.mp hrest2 with hsess | hman
      · cases sessions with
        | none => simp at hsess
        | some sTree =>
            rw [List.mem_map] at hsess
            obtain ⟨pc, _, heq⟩ := hsess
            have hq : "workspace/" ++ p = "sessions/" ++ pc.1 :=
              (congrArg Prod.fst heq).symm
            have hh : (some 'w' : Option Char) = some 's' :=
              congrArg (fun s => s.data.head?) hq
            simp at hh
      · rw [List.mem_singleton] at hman
        have hq : "workspace/" ++ p = "manifest.json" := congrArg Prod.fst hman
        have hh : (some 'w' : Option Char) = some 'm' :=
          congrArg (fun s => s.data.head?) hq
        simp at hh

/-- An entry of the modelled snapshot archive whose path lies under
config/ comes from the config tree. -/
theorem take_snapshot_archive_config_mem (ws cfgTree : FileTree)
    (sessions : Option FileTree) (manifest : String) (p c : String)
    (h : ("config/" ++ p, c) ∈ take_snapshot_archive ws cfgTree sessions manifest) :
    (p, c) ∈ cfgTree := by
  unfold take_snapshot_archive at h
  rw [List.append_assoc, List.append_assoc] at h
  rcases List.mem_append.mp h with hws | hrest
  · exfalso
    obtain ⟨q, hq, _⟩ := archiveSection_mem hws
    have hh : (some 'c' : Option Char) = some 'w' := congrArg (fun s => s.data.head?) hq
    simp at hh
  · rcases List.mem_append.mp hrest with hcfg | hrest2
    · obtain ⟨q, hq, hmem⟩ := archiveSection_mem hcfg
      rw [append_left_cancel_str "config/" p q hq]
      exact hmem
    · exfalso
      rcases List.mem_append.mp hrest2 with hsess | hman
      · cases sessions with
        | none => simp at hsess
        | some sTree =>
            rw [List.mem_map] at hsess
            obtain ⟨pc, _, heq⟩ := hsess
            have hq : "config/" ++ p = "sessions/" ++ pc.1 :=
              (congrArg Prod.fst heq).symm
            have hh : (some 'c' : Option Char) = some 's' :=
              congrArg (fun s => s.data.head?) hq
            simp at hh
      · rw [List.mem_singleton] at hman
        have hq : "config/" ++ p = "manifest.json" := congrArg Prod.fst hman
        have hh : (some 'c' : Option Char) = some 'm' :=
          congrArg (fun s => s.data.head?) hq
        simp at hh

/-- C3: round trip through the archive.  For every workspace and config
tree (and optional session tree and manifest), every archived entry under
workspace/ is reproduced by the restore extraction path byte-for-byte at
the same relative path under the workspace root — and that path carried
exactly the original workspace file — and likewise every archived entry
under config/ is reproduced at the same relative path under the config
root with the original config file's content. -/
theorem c3_snapshot_restore_roundtrip (ws cfgTree : FileTree)
    (sessions : Option FileTree) (manifest : String) (p c : String) :
    (("workspace/" ++ p, c) ∈ take_snapshot_archive ws cfgTree sessions manifest →
      (p, c) ∈ extract_backup_workspace (take_snapshot_archive ws cfgTree sessions manifest) ∧
      (p, c) ∈ ws) ∧
    (("config/" ++ p, c) ∈ take_snapshot_archive ws cfgTree sessions manifest →
      (p, c) ∈ extract_backup_config (take_snapshot_archive ws cfgTree sessions manifest) ∧
      (p, c) ∈ cfgTree) := by
  constructor
  · intro h
    refine ⟨?_, take_snapshot_archive_workspace_mem ws cfgTree sessions manifest p c h⟩
    unfold extract_backup_workspace
    rw [List.mem_filterMap]
    refine ⟨("workspace/" ++ p, c), h, ?_⟩
    rw [strStarts_append]
    rw [if_pos rfl]
    rw [strDropN_append "workspace/" p 10 rfl]
  · intro h
    refine ⟨?_, take_snapshot_archive_config_mem ws cfgTree sessions manifest p c h⟩
    unfold extract_backup_config
    rw [List.mem_filterMap]
    refine ⟨("config/" ++ p, c), h, ?_⟩
    have hnw : strStarts "workspace/" ("config/" ++ p) = false := by
      unfold strStarts
      rw [String.data_append]
      rfl
    rw [hnw]
    simp only [Bool.false_eq_true, if_false]
    rw [strStarts_append]
    rw [if_pos rfl]
    rw [strDropN_append "config/" p 7 rfl]

/-- C3 evaluated on the spec's example tree: SOUL.md and openclaw.json
are archived and extracted back to their original relative paths with
identical content. -/
theorem c3_snapshot_restore_roundtrip_witness :
    (("SOUL.md", "i am the agent") ∈
        extract_backup_workspace (take_snapshot_archive wsExample cfgExample none "m") ∧
      ("SOUL.md", "i am the agent") ∈ wsExample) ∧
    (("openclaw.json", "gateway port 7744") ∈
        extract_backup_config (take_snapshot_archive wsExample cfgExample none "m") ∧
      ("openclaw.json", "gateway port 7744") ∈ cfgExample) :=
  ⟨(c3_snapshot_restore_roundtrip wsExample cfgExample none "m"
      "SOUL.md" "i am the agent").1 (by decide),
   (c3_snapshot_restore_roundtrip wsExample cfgExample none "m"
      "openclaw.json" "gateway port 7744").2 (by decide)⟩

/-- Comparison of a list with itself is eq. -/
theorem charListCmp_refl (x : List Char) : charListCmp x x = Ordering.eq := by
  induction x with
  | nil => rfl
  | cons a as ih =>
      simp only [charListCmp]
      rw [if_neg (Nat.lt_irrefl _), if_neg (Nat.lt_irrefl _)]
      exact ih

/-- Swapping the arguments of the comparison swaps the result. -/
theorem charListCmp_swap (x : List Char) : ∀ y, charListCmp y x = (charListCmp x y).swap := by
  induction x with
  | nil => intro y; cases y <;> rfl
  | cons a as ih =>
      intro y
      cases y with
      | nil => rfl
      | cons b bs =>
          simp only [charListCmp]
          rcases Nat.lt_trichotomy a.toNat b.toNat with h | h | h
          · rw [if_neg (Nat.lt_asymm h), if_pos h, if_pos h]
            rfl
          · rw [if_neg (h ▸ Nat.lt_irrefl _), if_neg (h ▸ Nat.lt_irrefl _),
                if_neg (h ▸ Nat.lt_irrefl _), if_neg (h ▸ Nat.lt_irrefl _)]
            exact ih bs
          · rw [if_pos h, if_neg (Nat.lt_asymm h), if_pos h]
            rfl

/-- The comparison is eq only on equal lists. -/
theorem charListCmp_eq (x : List Char) :
    ∀ y, charListCmp x y = Ordering.eq → x = y := by
  induction x with
  | nil =>
      intro y h
      cases y with
      | nil => rfl
      | cons b bs => cases h
  | cons a as ih =>
      intro y h
      cases y with
      | nil => cases h
      | cons b bs =>
          simp only [charListCmp] at h
          by_cases h1 : a.toNat < b.toNat
          · rw [if_pos h1] at h; cases h
          · rw [if_neg h1] at h
            by_cases h2 : b.toNat < a.toNat
            · rw [if_pos h2] at h; cases h
            · rw [if_neg h2] at h
              have hab : a = b :=
                Char.ext (UInt32.ext
                  (Nat.le_antisymm (Nat.not_lt.mp h2) (Nat.not_lt.mp h1)))
              rw [hab, ih bs h]

/-- Transitivity of the strict comparison. -/
theorem charListCmp_lt_trans (x : List Char) :
    ∀ y z, charListCmp x y = Ordering.lt → charListCmp y z = Ordering.lt →
      charListCmp x z = Ordering.lt := by
  induction x with
  | nil =>
      intro y z hxy hyz
      cases y with
      | nil => cases hxy
      | cons b bs =>
          cases z with
          | nil => cases hyz
          | cons c cs => rfl
  | cons a as ih =>
      intro y z hxy hyz
      cases y with
      | nil => cases hxy
      | cons b bs =>
          cases z with
          | nil => cases hyz
          | cons c cs =>
              simp only [charListCmp] at hxy hyz ⊢
              by_cases h1 : a.toNat < b.toNat
              · by_cases h2 : b.toNat < c.toNat
                · rw [if_pos (Nat.lt_trans h1 h2)]
                · rw [if_neg h2] at hyz
                  by_cases h3 : c.toNat < b.toNat
                  · rw [if_pos h3] at hyz; cases hyz
                  · have hbc : b.toNat = c.toNat :=
                      Nat.le_antisymm (Nat.not_lt.mp h3) (Nat.not_lt.mp h2)
                    rw [if_pos (hbc ▸ h1)]
              · rw [if_neg h1] at hxy
                by_cases h1b : b.toNat < a.toNat
                · rw [if_pos h1b] at hxy; cases hxy
                · rw [if_neg h1b] at hxy
                  have hab : a.toNat = b.toNat :=
                    Nat.le_antisymm (Nat.not_lt.mp h1b) (Nat.not_lt.mp h1)
                  by_cases h2 : b.toNat < c.toNat
                  · rw [if_pos (hab ▸ h2)]
                  · rw [if_neg h2] at hyz
                    by_cases h3 : c.toNat < b.toNat
                    · rw [if_pos h3] at hyz; cases hyz
                    · rw [if_neg h3] at hyz
                      have hbc : b.toNat = c.toNat :=
                        Nat.le_antisymm (Nat.not_lt.mp h3) (Nat.not_lt.mp h2)
                      rw [if_neg (by rw [hab, hbc]; exact Nat.lt_irrefl _),
                          if_neg (by rw [hab, hbc]; exact Nat.lt_irrefl _)]
                      exact ih bs cs hxy hyz

/-- The boolean string order is total. -/
theorem strLeB_total (a b : String) : strLeB a b = true ∨ strLeB b a = true := by
  unfold strLeB strCmp
  cases h : charListCmp a.data b.data with
  | lt => left; rfl
  | eq => left; rfl
  | gt =>
      right
      rw [charListCmp_swap a.data b.data, h]
      rfl

/-- When a is not below b, b is below a. -/
theorem strLeB_of_not (a b : String) (h : strLeB a b = false) : strLeB b a = true := by
  rcases strLeB_total a b with h1 | h1
  · rw [h1] at h; cases h
  · exact h1

/-- The boolean string order is transitive. -/
theorem strLeB_trans (a b c : String) (hab : strLeB a b = true)
    (hbc : strLeB b c = true) : strLeB a c = true := by
  unfold strLeB strCmp at *
  cases h1 : charListCmp a.data b.data with
  | gt => rw [h1] at hab; cases hab
  | eq =>
      rw [charListCmp_eq a.data b.data h1]
      exact hbc
  | lt =>
      cases h2 : charListCmp b.data c.data with
      | gt => rw [h2] at hbc; cases hbc
      | eq =>
          rw [← charListCmp_eq b.data c.data h2, h1]
          rfl
      | lt =>
          rw [charListCmp_lt_trans a.data b.data c.data h1 h2]
          rfl

/-- Insertion keeps the same elements, as a permutation. -/
theorem orderedInsertStr_perm (a : String) (l : List String) :
    (orderedInsertStr a l).Perm (a :: l) := by
  induction l with
  | nil => exact List.Perm.refl _
  | cons b t ih =>
      unfold orderedInsertStr
      by_cases h : strLeB a b = true
      · rw [if_pos h]
      · rw [if_neg h]
        exact (List.Perm.cons b ih).trans (List.Perm.swap a b t)

/-- The sort is a permutation of its input. -/
theorem insertionSortStr_perm (l : List String) : (insertionSortStr l).Perm l := by
  induction l with
  | nil => exact List.Perm.refl _
  | cons a t ih =>
      unfold insertionSortStr
      exact (orderedInsertStr_perm a (insertionSortStr t)).trans (List.Perm.cons a ih)

/-- Insertion into an ascending list keeps it ascending. -/
theorem orderedInsertStr_sorted (a : String) (l : List String)
    (hl : List.Pairwise (fun x y => strLeB x y = true) l) :
    List.Pairwise (fun x y => strLeB x y = true) (orderedInsertStr a l) := by
  induction l with
  | nil => simp [orderedInsertStr]
  | cons b t ih =>
      unfold orderedInsertStr
      by_cases h : strLeB a b = true
      · rw [if_pos h]
        rw [List.pairwise_cons]
        refine ⟨?_, hl⟩
        intro y hy
        rcases List.mem_cons.mp hy with heq | hyt
        · rw [heq]
          exact h
        · exact strLeB_trans a b y h ((List.pairwise_cons.mp hl).1 y hyt)
      · rw [if_neg h]
        rw [List.pairwise_cons] at hl
        rw [List.pairwise_cons]
        refine ⟨?_, ih hl.2⟩
        intro y hy
        have hy2 : y ∈ a :: t := (orderedInsertStr_perm a t).mem_iff.mp hy
        rcases List.mem_cons.mp hy2 with heq | hyt
        · rw [heq]
          exact strLeB_of_not a b (Bool.eq_false_iff.mpr h)
        · exact hl.1 y hyt

/-- The sort output is ascending. -/
theorem insertionSortStr_sorted (l : List String) :
    List.Pairwise (fun x y => strLeB x y = true) (insertionSortStr l) := by
  induction l with
  | nil => simp [insertionSortStr]
  | cons a t ih => exact orderedInsertStr_sorted a _ ih

/-- A string ends with any of its trailing parts. -/
theorem strEnds_append (p r : String) : strEnds p (r ++ p) = true := by
  unfold strEnds
  rw [String.data_append]
  exact List.isSuffixOf_iff_suffix.mpr (List.suffix_append _ _)

/-- Every filename take_snapshot produces passes the gz-extension filter
of list_snapshots. -/
theorem hasGzExt_backupFilename (ts : String) : hasGzExt (backupFilename ts) = true := by
  unfold hasGzExt backupFilename
  have h1 : strEnds ".gz" ("backup-" ++ ts ++ ".tar.gz") = true := by
    unfold strEnds
    rw [String.data_append]
    refine List.isSuffixOf_iff_suffix.mpr
      (List.IsSuffix.trans ⟨".tar".data, by decide⟩ (List.suffix_append _ _))
  have h2 : ("backup-" ++ ts ++ ".tar.gz") ≠ ".gz" := by
    intro hEq
    have hlen := congrArg (fun s => s.data.length) hEq
    simp only [String.data_append, List.length_append] at hlen
    have e1 : "backup-".data.length = 7 := rfl
    have e2 : ".tar.gz".data.length = 7 := rfl
    have e3 : ".gz".data.length = 3 := rfl
    rw [e1, e2, e3] at hlen
    omega
  rw [h1, bne_iff_ne.mpr h2]
  rfl

/-- Stripping the trailing part off a concatenation gives back the rest. -/
theorem strDropEnd_append (r p : String) (n : Nat) (h : p.data.length = n) :
    strDropEnd (r ++ p) n = r := by
  unfold strDropEnd
  rw [String.data_append, List.length_append, h, Nat.add_sub_cancel, List.take_left]

/-- The id a take_snapshot filename gets back from list_snapshots is the
original timestamp id. -/
theorem snapshotId_backupFilename (ts : String) :
    snapshotId (backupFilename ts) = ts := by
  unfold snapshotId backupFilename
  rw [String.append_assoc]
  rw [strStarts_append]
  simp only [if_true]
  rw [strDropN_append "backup-" (ts ++ ".tar.gz") 7 rfl]
  rw [strEnds_append]
  simp only [if_true]
  exact strDropEnd_append ts ".tar.gz" 7 rfl

/-- Comparison ignores a shared leading part. -/
theorem charListCmp_append_left (p : List Char) :
    ∀ x y, charListCmp (p ++ x) (p ++ y) = charListCmp x y := by
  induction p with
  | nil => intro x y; rfl
  | cons a q ih =>
      intro x y
      simp only [List.cons_append, charListCmp]
      rw [if_neg (Nat.lt_irrefl _), if_neg (Nat.lt_irrefl _)]
      exact ih x y

/-- A strict comparison of equal-length lists survives appending
arbitrary tails. -/
theorem charListCmp_append_lt (x : List Char) :
    ∀ y s t, x.length = y.length → charListCmp x y = Ordering.lt →
      charListCmp (x ++ s) (y ++ t) = Ordering.lt := by
  induction x with
  | nil =>
      intro y s t hlen h
      cases y with
      | nil => cases h
      | cons b bs => simp at hlen
  | cons a as ih =>
      intro y s t hlen h
      cases y with
      | nil => simp at hlen
      | cons b bs =>
          simp only [List.cons_append]
          simp only [charListCmp] at h ⊢
          by_cases h1 : a.toNat < b.toNat
          · rw [if_pos h1]
          · rw [if_neg h1] at h ⊢
            by_cases h2 : b.toNat < a.toNat
            · rw [if_pos h2] at h; cases h
            · rw [if_neg h2] at h ⊢
              exact ih bs s t (by simpa using hlen) h

/-- Archive filenames order exactly as their embedded equal-width
timestamps do: the fixed backup- and .tar.gz parts cancel. -/
theorem strCmp_backupFilename_lt (ts₁ ts₂ : String)
    (hlen : ts₁.data.length = ts₂.data.length)
    (h : strCmp ts₁ ts₂ = Ordering.lt) :
    strCmp (backupFilename ts₁) (backupFilename ts₂) = Ordering.lt := by
  unfold strCmp backupFilename at *
  rw [String.data_append, String.data_append, String.data_append, String.data_append]
  rw [List.append_assoc, List.append_assoc]
  rw [charListCmp_append_left]
  exact charListCmp_append_lt ts₁.data ts₂.data _ _ hlen h

/-- The filenames list_snapshots reports, in order. -/
theorem list_snapshots_paths (dir : List String) :
    (list_snapshots dir).map (fun s => s.path) =
      (insertionSortStr (dir.filter hasGzExt)).reverse := by
  unfold list_snapshots
  rw [List.map_map]
  exact List.map_id' _

/-- After take_snapshot adds its archive to a directory whose gz files
all follow the naming convention with equal-width strictly older
timestamps, the new snapshot is the first element of list_snapshots. -/
theorem list_snapshots_head_new (dir : List String) (newTs : String)
    (hconv : ∀ f ∈ dir, hasGzExt f = true →
      ∃ ts, ts.data.length = newTs.data.length ∧ strCmp ts newTs = Ordering.lt ∧
        f = backupFilename ts) :
    (list_snapshots (backupFilename newTs :: dir)).head? =
      some (Snapshot.mk newTs (backupFilename newTs)) := by
  have hfil : (backupFilename newTs :: dir).filter hasGzExt =
      backupFilename newTs :: dir.filter hasGzExt :=
    List.filter_cons_of_pos (hasGzExt_backupFilename newTs)
  have hperm := insertionSortStr_perm (backupFilename newTs :: dir.filter hasGzExt)
  have hsorted := insertionSortStr_sorted (backupFilename newTs :: dir.filter hasGzExt)
  have hmax : ∀ f ∈ insertionSortStr (backupFilename newTs :: dir.filter hasGzExt),
      f = backupFilename newTs ∨ strCmp f (backupFilename newTs) = Ordering.lt := by
    intro f hf
    have hf2 := hperm.mem_iff.mp hf
    rcases List.mem_cons.mp hf2 with rfl | hfd
    · exact Or.inl rfl
    · have hfdir := List.mem_filter.mp hfd
      obtain ⟨ts, hlen, hlt, rfl⟩ := hconv f hfdir.1 hfdir.2
      exact Or.inr (strCmp_backupFilename_lt ts newTs hlen hlt)
  have hrevsorted : List.Pairwise (fun a b => strLeB b a = true)
      (insertionSortStr (backupFilename newTs :: dir.filter hasGzExt)).reverse := by
    rw [List.pairwise_reverse]
    exact hsorted
  have hnfmem : backupFilename newTs ∈
      insertionSortStr (backupFilename newTs :: dir.filter hasGzExt) :=
    hperm.mem_iff.mpr (List.mem_cons_self _ _)
  unfold list_snapshots
  rw [hfil]
  cases hrev : (insertionSortStr (backupFilename newTs :: dir.filter hasGzExt)).reverse with
  | nil =>
      exfalso
      have hmemrev := List.mem_reverse.mpr hnfmem
      rw [hrev] at hmemrev
      cases hmemrev
  | cons h t =>
      have hh : h ∈ insertionSortStr (backupFilename newTs :: dir.filter hasGzExt) := by
        refine List.mem_reverse.mp ?_
        rw [hrev]
        exact List.mem_cons_self h t
      have hhead : h = backupFilename newTs := by
        rcases hmax h hh with heq | hlt
        · exact heq
        · exfalso
          have hnfrev := List.mem_reverse.mpr hnfmem
          rw [hrev] at hnfrev
          rcases List.mem_cons.mp hnfrev with heq2 | hmemt
          · rw [← heq2] at hlt
            unfold strCmp at hlt
            rw [charListCmp_refl] at hlt
            cases hlt
          · rw [hrev] at hrevsorted
            have hle := (List.pairwise_cons.mp hrevsorted).1 _ hmemt
            have hswap : strCmp (backupFilename newTs) h = Ordering.gt := by
              unfold strCmp at hlt ⊢
              rw [charListCmp_swap h.data (backupFilename newTs).data]
              rw [hlt]
              rfl
            unfold strLeB at hle
            rw [hswap] at hle
            cases hle
      simp only [List.map_cons, List.head?_cons]
      rw [hhead, snapshotId_backupFilename]

/-- C5 counterexample: list_snapshots does not consider exactly the
archive files matching the backup naming convention — any file with
extension gz is included.  With a stray zzz.gz in the backup directory,
immediately after take_snapshot creates its archive, the first listed
snapshot is the stray file, not the newly created snapshot. -/
theorem c5_counterexample :
    hasGzExt "zzz.gz" = true ∧
    strStarts "backup-" "zzz.gz" = false ∧
    Snapshot.mk "zzz.gz" "zzz.gz" ∈
      list_snapshots (backupFilename "20250102-000000" :: ["zzz.gz"]) ∧
    (list_snapshots (backupFilename "20250102-000000" :: ["zzz.gz"])).head? ≠
      some (Snapshot.mk "20250102-000000" (backupFilename "20250102-000000")) := by
  decide

/-- C5 (amended): list_snapshots considers exactly the directory entries
with extension gz (not only those matching the naming convention) and
returns them ordered by filename descending; on convention-matching
names with equal-width timestamps this order is the embedded-timestamp
order, so immediately after a successful take_snapshot whose timestamp
is strictly newer than the timestamps of all gz files already present,
the newly created snapshot is the first element of list_snapshots. -/
theorem c5_amended (dir : List String) (newTs : String) :
    ((list_snapshots dir).map (fun s => s.path)).Perm (dir.filter hasGzExt) ∧
    List.Pairwise (fun a b => strLeB b a = true)
      ((list_snapshots dir).map (fun s => s.path)) ∧
    ((∀ f ∈ dir, hasGzExt f = true →
        ∃ ts, ts.data.length = newTs.data.length ∧ strCmp ts newTs = Ordering.lt ∧
          f = backupFilename ts) →
      (list_snapshots (backupFilename newTs :: dir)).head? =
        some (Snapshot.mk newTs (backupFilename newTs))) := by
  refine ⟨?_, ?_, fun hconv => list_snapshots_head_new dir newTs hconv⟩
  · rw [list_snapshots_paths]
    exact (List.reverse_perm _).trans (insertionSortStr_perm _)
  · rw [list_snapshots_paths]
    rw [List.pairwise_reverse]
    exact insertionSortStr_sorted _

/-- C5 amended, evaluated: a directory holding one older convention
snapshot; after take_snapshot adds a strictly newer one, the new
snapshot heads the listing. -/
theorem c5_amended_witness :
    (list_snapshots (backupFilename "20250102-000000" ::
        ["backup-20250101-000000.tar.gz"])).head? =
      some (Snapshot.mk "20250102-000000" (backupFilename "20250102-000000")) := by
  refine (c5_amended ["backup-20250101-000000.tar.gz"] "20250102-000000").2.2 ?_
  intro f hf _
  have hf1 : f = "backup-20250101-000000.tar.gz" := List.mem_singleton.mp hf
  subst hf1
  exact ⟨"20250101-000000", by decide, by decide, by decide⟩

end RescueClaw
